import Mathlib

/-!
Verification of the camera settings derivation and write normalization in
`src/plugins/homekit/src/camera-mixin.ts` (class `CameraMixin`).

The persisted key/value store (`this.storage`) is modelled as a function from
keys to optional string values.  The catalogs `getH264DecoderArgs` /
`getH264EncoderArgs` live outside the excerpted source, so they are taken as
parameters (association lists from preset names to token lists); likewise JSON
parsing and serialization are platform builtins and appear as parameters.
The settings contributed by the superclass (`super.getMixinSettings()` /
`super.putMixinSetting`, the `storageSettings` delegation) are an opaque
appended tail and are outside the modelled engine.
-/

namespace CameraMixin

/-- The persisted key/value store: `getItem` is application, a key is either
absent (`none`) or holds exactly one string. -/
def Store : Type := String → Option String

/-- `storage.getItem(key)`. -/
def Store.getItem (s : Store) (k : String) : Option String := s k

/-- `storage.setItem(key, value)`. -/
def Store.setItem (s : Store) (k v : String) : Store :=
  fun k' => if k' = k then some v else s k'

/-- `storage.removeItem(key)`. -/
def Store.removeItem (s : Store) (k : String) : Store :=
  fun k' => if k' = k then none else s k'

/-- The store with no keys set. -/
def Store.empty : Store := fun _ => none

/-- JavaScript truthiness of a `getItem` result: `null` and the empty string
are falsy, every other string is truthy. -/
def jsTruthy : Option String → Bool
  | none => false
  | some s => s ≠ ""

/-- A `SettingValue` as submitted to the write path: a string or a list of
strings (multi-select). -/
inductive SettingValue where
  | str : String → SettingValue
  | strList : List String → SettingValue
deriving DecidableEq, Repr

/-- JavaScript `value?.toString()` for the modelled setting values: a string
is itself, an array joins its elements with commas. -/
def SettingValue.toStorageString : SettingValue → String
  | .str s => s
  | .strList l => String.intercalate "," l

/-- A preset catalog (`getH264DecoderArgs()` / `getH264EncoderArgs()` result):
preset names mapped to ordered argument-token lists. -/
def Catalog : Type := List (String × List String)

/-- Catalog lookup `catalog[name]`: the token list of the first entry whose
name matches, or `none`. -/
def Catalog.lookupArgs (cat : Catalog) (name : String) : Option (List String) :=
  (cat.find? (fun e => e.1 = name)).map (fun e => e.2)

/-- The names offered as choices for an argument-choice descriptor:
`Object.keys(catalog)`. -/
def Catalog.names (cat : Catalog) : List String := cat.map (fun e => e.1)

/-- The deferred target bit-rate tokens appended to an encoder preset:
twice the requested maximum bit-rate. -/
def deferredBitrateTokens : List String :=
  ["-b:v", "$\x7brequest.video.max_bit_rate * 2\x7dk"]

/-- The deferred rescale-filter tokens appended to an encoder preset:
sized to the requested width and height. -/
def deferredScaleTokens : List String :=
  ["-vf", "scale=$\x7brequest.video.width\x7d:$\x7brequest.video.height\x7d"]

/-- The deferred frame-rate tokens appended to an encoder preset:
bound to the requested rate. -/
def deferredFramerateTokens : List String :=
  ["-r", "$\x7brequest.video.fps\x7d"]

/-- `extraEncoderArgs` from `putMixinSetting`: the three deferred token pairs
(bit-rate, rescale, frame-rate), in order. -/
def extraEncoderArgs : List String :=
  deferredBitrateTokens ++ deferredScaleTokens ++ deferredFramerateTokens

/-- The `videoDecoderArguments` value transformation in `putMixinSetting`:
`value = decoderArgs[value.toString()]?.join(' ') || value`.  A joined result
that is the empty string is falsy, so the raw value survives in that case. -/
def expandDecoderValue (decoderArgs : Catalog) (value : String) : String :=
  match decoderArgs.lookupArgs value with
  | some args =>
      let joined := String.intercalate " " args
      if joined = "" then value else joined
  | none => value

/-- The `h264EncoderArguments` value transformation in `putMixinSetting`:
a cataloged preset has `extraEncoderArgs` appended, is joined with spaces and
wrapped in backticks for deferred evaluation; an unrecognized name passes the
raw value through unchanged. -/
def expandEncoderValue (encoderArgs : Catalog) (value : String) : String :=
  match encoderArgs.lookupArgs value with
  | some args =>
      let substitute := String.intercalate " " (args ++ extraEncoderArgs)
      "`" ++ substitute ++ "`"
  | none => value

/-- `putMixinSetting(key, value)` for keys handled by this mixin (keys managed
by the collaborator's `storageSettings` are delegated to the superclass and are
out of the modelled scope).  Transforms decoder/encoder argument values,
normalizes the mutually exclusive transcode-mode flags on a `hubStreamingMode`
write, then persists the (transformed) value under the written key itself —
JSON-serialized for `objectDetectionContactSensors`, stringified otherwise.
`jsonStringify` stands for the platform `JSON.stringify`. -/
def putMixinSetting (decoderArgs encoderArgs : Catalog)
    (jsonStringify : SettingValue → String)
    (store : Store) (key : String) (value : SettingValue) : Store :=
  let value1 : SettingValue :=
    if key = "videoDecoderArguments" then
      .str (expandDecoderValue decoderArgs value.toStorageString)
    else value
  let value2 : SettingValue :=
    if key = "h264EncoderArguments" then
      .str (expandEncoderValue encoderArgs value1.toStorageString)
    else value1
  let store1 : Store :=
    if key = "hubStreamingMode" then
      if value2 = .str "Dynamic Bitrate" then
        (store.setItem "dynamicBitrate" "true").removeItem "transcodeStreamingHub"
      else if value2 = .str "transcodeStreamingHub" then
        (store.setItem "transcodeStreamingHub" "true").removeItem "dynamicBitrate"
      else
        (store.removeItem "dynamicBitrate").removeItem "transcodeStreamingHub"
    else store
  if key = "objectDetectionContactSensors" then
    store1.setItem key (jsonStringify value2)
  else
    store1.setItem key value2.toStorageString

/-- The capabilities consulted during one derivation pass: the stream channel
names returned by `getVideoStreamOptions` (already degraded to `[]` on a
transport error, per the `try`/`catch`), the interface flags tested with
`this.interfaces.includes(...)`, the `getObjectTypes` result (`none` when the
probe threw or returned no classes field), and the device's own id. -/
structure CapabilitySet where
  msos : List String
  hasMotionSensorInterface : Bool
  hasAudioSensor : Bool
  hasObjectDetector : Bool
  supportsVideoCameraConfiguration : Bool
  hasOnOff : Bool
  objectClasses : Option (List String)
  deviceId : String
deriving DecidableEq, Repr

/-- A derived descriptor value: a string, a string list (multi-select), a raw
boolean (`statusIndicator`), or a number (the timeout default). -/
inductive DescValue where
  | str : String → DescValue
  | strList : List String → DescValue
  | bool : Bool → DescValue
  | num : Nat → DescValue
deriving DecidableEq, Repr

/-- A produced setting descriptor, restricted to the fields the verified
properties mention: the key, the derived value (`none` models a null value),
and the offered choices (`none` when the descriptor offers no choice list).
Presentation-only fields (title, group, description, placeholder, type flags)
are not modelled. -/
structure SettingDescriptor where
  key : String
  value : Option DescValue
  choices : Option (List String)
deriving DecidableEq, Repr

/-- `getItem(key) || fallback`: the stored string when it is truthy (present
and nonempty), the fallback otherwise. -/
def storedOr (store : Store) (key fallback : String) : String :=
  match store.getItem key with
  | some s => if s = "" then fallback else s
  | none => fallback

/-- `(getItem(key) === 'true').toString()`: the `"true"`/`"false"` string shown
by the boolean toggles. -/
def storedBoolString (store : Store) (key : String) : String :=
  if store.getItem key = some "true" then "true" else "false"

/-- The `hasMotionSensor` condition: a truthy stored `linkedMotionSensor`, or
the device natively exposing the motion-sensor interface. -/
def hasMotionSensor (caps : CapabilitySet) (store : Store) : Bool :=
  jsTruthy (store.getItem "linkedMotionSensor") || caps.hasMotionSensorInterface

/-- The first half of `showTranscodeArgs`: streaming or hub-streaming
transcode enabled. -/
def showTranscodeArgsBase (store : Store) : Bool :=
  store.getItem "transcodeStreaming" = some "true"
    || store.getItem "transcodeStreamingHub" = some "true"

/-- `showTranscodeArgs` after the motion-gated update: when a motion trigger
path exists, `transcodeRecording` also enables the argument descriptors. -/
def showTranscodeArgs (caps : CapabilitySet) (store : Store) : Bool :=
  showTranscodeArgsBase store
    || (hasMotionSensor caps store && store.getItem "transcodeRecording" = some "true")

/-- The displayed `hubStreamingMode` value (read path, lines 122-134): a truthy
stored `hubStreamingMode` entry wins; otherwise `Dynamic Bitrate` when the
`dynamicBitrate` flag is `"true"`, else `Transcode` when the
`transcodeStreamingHub` flag is `"true"`; a still-falsy value displays as
`Disabled`. -/
def hubStreamingModeValue (store : Store) : String :=
  let v0 := store.getItem "hubStreamingMode"
  let v1 :=
    if jsTruthy v0 then v0
    else if store.getItem "dynamicBitrate" = some "true" then some "Dynamic Bitrate"
    else if store.getItem "transcodeStreamingHub" = some "true" then some "Transcode"
    else v0
  match v1 with
  | some s => if s = "" then "Disabled" else s
  | none => "Disabled"

/-- The derived `objectDetectionContactSensors` multi-select value: the parsed
stored JSON array, or the empty sequence when the key is absent or any parse
step throws (`parse` stands for the platform `JSON.parse` plus the spread into
a string array, returning `none` on a throw). -/
def objectDetectionSensorsValue (parse : String → Option (List String))
    (stored : Option String) : List String :=
  match stored with
  | none => []
  | some s =>
    match parse s with
    | some l => l
    | none => []

/-- The non-`"motion"` object classes derived from the probe result:
`types?.classes?.filter(c => c !== 'motion')`, with `[]` when the probe failed
(the surrounding `try` then skips the descriptors). -/
def detectedClasses (caps : CapabilitySet) : List String :=
  match caps.objectClasses with
  | some l => l.filter (fun c => c ≠ "motion")
  | none => []

/-- `getMixinSettings()`: the ordered descriptor list produced by one
derivation pass, excluding the opaque tail appended by the superclass.
`parse` stands for the platform JSON parse used by the multi-select value. -/
def getMixinSettings (caps : CapabilitySet) (store : Store)
    (parse : String → Option (List String))
    (decoderArgs encoderArgs : Catalog) : List SettingDescriptor :=
  (if 1 < caps.msos.length then
    [{ key := "streamingChannel",
       value := some (.str (storedOr store "streamingChannel" (caps.msos.headI))),
       choices := some caps.msos },
     { key := "streamingChannelHub",
       value := some (.str (storedOr store "streamingChannelHub" (caps.msos.headI))),
       choices := some caps.msos }]
   else [])
  ++ (if hasMotionSensor caps store && 1 < caps.msos.length then
    [{ key := "recordingChannel",
       value := some (.str (storedOr store "recordingChannel" (caps.msos.headI))),
       choices := some caps.msos }]
   else [])
  ++ [{ key := "linkedMotionSensor",
        value := some (.str (storedOr store "linkedMotionSensor" caps.deviceId)),
        choices := none },
      { key := "transcodingNotices",
        value := some (.str "WARNING"),
        choices := none },
      { key := "needsExtraData",
        value := some (.str (storedBoolString store "needsExtraData")),
        choices := none }]
  ++ (if hasMotionSensor caps store then
    [{ key := "transcodeRecording",
       value := some (.str (storedBoolString store "transcodeRecording")),
       choices := none }]
   else [])
  ++ [{ key := "transcodeStreaming",
        value := some (.str (storedBoolString store "transcodeStreaming")),
        choices := none }]
  ++ (if caps.supportsVideoCameraConfiguration then
    [{ key := "hubStreamingMode",
       value := some (.str (hubStreamingModeValue store)),
       choices := some ["Disabled", "Transcode", "Dynamic Bitrate"] }]
   else
    [{ key := "transcodeStreamingHub",
       value := some (.str (storedBoolString store "transcodeStreamingHub")),
       choices := none }])
  ++ (if showTranscodeArgs caps store then
    [{ key := "videoDecoderArguments",
       value := (store.getItem "videoDecoderArguments").map .str,
       choices := some decoderArgs.names },
     { key := "h264EncoderArguments",
       value := (store.getItem "h264EncoderArguments").map .str,
       choices := some encoderArgs.names }]
   else [])
  ++ (if caps.hasAudioSensor then
    [{ key := "detectAudio",
       value := some (.str (storedBoolString store "detectAudio")),
       choices := none }]
   else [])
  ++ (if caps.hasObjectDetector && detectedClasses caps ≠ [] then
    [{ key := "objectDetectionContactSensors",
       value := some (.strList (objectDetectionSensorsValue parse
         (store.getItem "objectDetectionContactSensors"))),
       choices := some (detectedClasses caps) },
     { key := "objectDetectionContactSensorTimeout",
       value := some (match store.getItem "objectDetectionContactSensorTimeout" with
         | some s => if s = "" then .num 60 else .str s
         | none => .num 60),
       choices := none }]
   else [])
  ++ (if caps.hasOnOff then
    [{ key := "statusIndicator",
       value := some (.bool (store.getItem "statusIndicator" = some "true")),
       choices := none }]
   else [])

/-- A sample encoder catalog used to instantiate the catalog-parametric
theorems at concrete inputs. -/
def sampleEncoderCatalog : Catalog :=
  [("Video Toolbox", ["-vcodec", "h264_videotoolbox"])]

/-- A capability set with an object detector reporting one non-motion class,
used to instantiate derivation theorems at a concrete input. -/
def capsWithDetector : CapabilitySet :=
  { msos := [], hasMotionSensorInterface := false, hasAudioSensor := false,
    hasObjectDetector := true, supportsVideoCameraConfiguration := false,
    hasOnOff := false, objectClasses := some ["person"], deviceId := "camera1" }

/-- A store whose `objectDetectionContactSensors` entry is not valid JSON. -/
def storeWithBadJson : Store :=
  fun k => if k = "objectDetectionContactSensors" then some "not json" else none

/-- A store holding a present but empty `hubStreamingMode` entry together with
the `dynamicBitrate` flag. -/
def storeEmptyHubWithDynamic : Store :=
  fun k =>
    if k = "hubStreamingMode" then some ""
    else if k = "dynamicBitrate" then some "true"
    else none

/-- The read-path display rule as the (amended) specification words it, for
the refinement comparison: prefer a present nonempty stored `hubStreamingMode`
entry; otherwise `Dynamic Bitrate` when the `dynamicBitrate` flag is `"true"`
(also when both flags are somehow set); otherwise `Transcode` when the
`transcodeStreamingHub` flag is `"true"`; otherwise `Disabled`. -/
def specHubStreamingDisplay (store : Store) : String :=
  if jsTruthy (store.getItem "hubStreamingMode") then
    (store.getItem "hubStreamingMode").getD "Disabled"
  else if store.getItem "dynamicBitrate" = some "true" then "Dynamic Bitrate"
  else if store.getItem "transcodeStreamingHub" = some "true" then "Transcode"
  else "Disabled"

/-- A capability set with two stream channels, a native motion sensor and
native stream configuration, used to instantiate round-trip theorems. -/
def capsFull : CapabilitySet :=
  { msos := ["main", "sub"], hasMotionSensorInterface := true,
    hasAudioSensor := false, hasObjectDetector := false,
    supportsVideoCameraConfiguration := true, hasOnOff := false,
    objectClasses := none, deviceId := "camera1" }

/-- A store with streaming transcode enabled, so the argument-choice
descriptors are derived. -/
def storeTranscodeStreaming : Store :=
  fun k => if k = "transcodeStreaming" then some "true" else none

/-- C1: the claim says a `hubStreamingMode` write of `Transcode` sets
`transcodeStreamingHub` to `"true"` and removes `dynamicBitrate`.  The write
path compares against the literal `'transcodeStreamingHub'`, which is not
among the offered choices, so the value `Transcode` falls into the clearing
branch: both flags end up absent and the mode is stored under its own key,
for every prior store state. -/
theorem put_transcode_choice_leaves_flags_unset (decoderArgs encoderArgs : Catalog)
    (jsonStringify : SettingValue → String) (store : Store) :
    (putMixinSetting decoderArgs encoderArgs jsonStringify store "hubStreamingMode"
        (.str "Transcode")).getItem "transcodeStreamingHub" = none
    ∧ (putMixinSetting decoderArgs encoderArgs jsonStringify store "hubStreamingMode"
        (.str "Transcode")).getItem "dynamicBitrate" = none
    ∧ (putMixinSetting decoderArgs encoderArgs jsonStringify store "hubStreamingMode"
        (.str "Transcode")).getItem "hubStreamingMode" = some "Transcode" := by
  refine ⟨?_, ?_, ?_⟩ <;>
    simp [putMixinSetting, Store.getItem, Store.setItem, Store.removeItem,
      SettingValue.toStorageString]

/-- C2: for every prior store state, writing `hubStreamingMode` with value
`Dynamic Bitrate` yields a store where `dynamicBitrate` holds `"true"` and
`transcodeStreamingHub` is absent. -/
theorem put_dynamic_bitrate_sets_flag (decoderArgs encoderArgs : Catalog)
    (jsonStringify : SettingValue → String) (store : Store) :
    (putMixinSetting decoderArgs encoderArgs jsonStringify store "hubStreamingMode"
        (.str "Dynamic Bitrate")).getItem "dynamicBitrate" = some "true"
    ∧ (putMixinSetting decoderArgs encoderArgs jsonStringify store "hubStreamingMode"
        (.str "Dynamic Bitrate")).getItem "transcodeStreamingHub" = none := by
  constructor <;>
    simp [putMixinSetting, Store.getItem, Store.setItem, Store.removeItem,
      SettingValue.toStorageString]

/-- C3 counterexample: a resolved `hubStreamingMode` write does store an entry
under the key `hubStreamingMode` itself — writing `Disabled` to the empty
store leaves the mode persisted under its own key. -/
theorem put_disabled_stores_mode_under_own_key :
    (putMixinSetting [] [] (fun _ => "null") Store.empty "hubStreamingMode"
        (.str "Disabled")).getItem "hubStreamingMode" = some "Disabled" := by
  simp [putMixinSetting, Store.getItem, Store.setItem, Store.removeItem,
    SettingValue.toStorageString, Store.empty]

/-- C3 (amended): after any resolved write of `hubStreamingMode`, the store
changes only at the two flag keys and at `hubStreamingMode` itself: every
other key keeps its prior value, and the written value is persisted under
`hubStreamingMode`. -/
theorem put_hub_mode_touches_only_flags_and_own_key
    (decoderArgs encoderArgs : Catalog) (jsonStringify : SettingValue → String)
    (store : Store) (v : String) (k : String)
    (hk1 : k ≠ "dynamicBitrate") (hk2 : k ≠ "transcodeStreamingHub")
    (hk3 : k ≠ "hubStreamingMode") :
    (putMixinSetting decoderArgs encoderArgs jsonStringify store "hubStreamingMode"
        (.str v)).getItem k = store.getItem k
    ∧ (putMixinSetting decoderArgs encoderArgs jsonStringify store "hubStreamingMode"
        (.str v)).getItem "hubStreamingMode" = some v := by
  constructor <;>
  · simp only [putMixinSetting, Store.getItem, Store.setItem, Store.removeItem,
      SettingValue.toStorageString]
    split_ifs <;> simp_all [Store.setItem, Store.removeItem]

/-- Witness for the amended C3 theorem at a concrete input: writing `Disabled`
leaves an unrelated key untouched and persists the mode under its own key. -/
theorem put_hub_mode_touches_only_flags_and_own_key_witness :
    (putMixinSetting [] [] (fun _ => "null") Store.empty "hubStreamingMode"
        (.str "Disabled")).getItem "detectAudio" = Store.empty.getItem "detectAudio"
    ∧ (putMixinSetting [] [] (fun _ => "null") Store.empty "hubStreamingMode"
        (.str "Disabled")).getItem "hubStreamingMode" = some "Disabled" :=
  put_hub_mode_touches_only_flags_and_own_key [] [] (fun _ => "null") Store.empty
    "Disabled" "detectAudio" (by decide) (by decide) (by decide)

/-- C10: writing any `hubStreamingMode` value other than the exact strings
`Dynamic Bitrate` and `transcodeStreamingHub` (so also `Disabled` and any
unrecognized string) removes both flag keys and persists the written value
under `hubStreamingMode` itself. -/
theorem put_other_mode_value_clears_flags_and_persists
    (decoderArgs encoderArgs : Catalog) (jsonStringify : SettingValue → String)
    (store : Store) (v : String)
    (h1 : v ≠ "Dynamic Bitrate") (h2 : v ≠ "transcodeStreamingHub") :
    (putMixinSetting decoderArgs encoderArgs jsonStringify store "hubStreamingMode"
        (.str v)).getItem "dynamicBitrate" = none
    ∧ (putMixinSetting decoderArgs encoderArgs jsonStringify store "hubStreamingMode"
        (.str v)).getItem "transcodeStreamingHub" = none
    ∧ (putMixinSetting decoderArgs encoderArgs jsonStringify store "hubStreamingMode"
        (.str v)).getItem "hubStreamingMode" = some v := by
  refine ⟨?_, ?_, ?_⟩ <;>
    simp [putMixinSetting, Store.getItem, Store.setItem, Store.removeItem,
      SettingValue.toStorageString, h1, h2]

/-- Witness for C10 at the enumerated choice `Disabled` over the empty
store. -/
theorem put_other_mode_value_clears_flags_and_persists_witness :
    (putMixinSetting [] [] (fun _ => "null") Store.empty "hubStreamingMode"
        (.str "Disabled")).getItem "dynamicBitrate" = none
    ∧ (putMixinSetting [] [] (fun _ => "null") Store.empty "hubStreamingMode"
        (.str "Disabled")).getItem "transcodeStreamingHub" = none
    ∧ (putMixinSetting [] [] (fun _ => "null") Store.empty "hubStreamingMode"
        (.str "Disabled")).getItem "hubStreamingMode" = some "Disabled" :=
  put_other_mode_value_clears_flags_and_persists [] [] (fun _ => "null")
    Store.empty "Disabled" (by decide) (by decide)

/-- Membership in a conditional segment of the descriptor list implies
membership in the segment's branch list. -/
theorem mem_of_mem_ite_nil {α : Type} {c : Prop} [Decidable c] {l : List α} {a : α}
    (h : a ∈ if c then l else []) : a ∈ l := by
  by_cases hc : c
  · simpa [hc] using h
  · simp [hc] at h

/-- C7: expanding a cataloged encoder preset yields the preset's own tokens
followed by exactly the three deferred token pairs — target bit-rate at twice
the requested maximum, a rescale filter sized to the requested width and
height, and a frame-rate bound to the requested rate — joined with spaces and
wrapped in backticks for deferred evaluation. -/
theorem expand_encoder_preset_appends_deferred_tokens
    (encoderArgs : Catalog) (name : String) (args : List String)
    (h : encoderArgs.lookupArgs name = some args) :
    expandEncoderValue encoderArgs name =
      "`" ++ String.intercalate " "
        (args ++ (deferredBitrateTokens ++ deferredScaleTokens ++ deferredFramerateTokens))
        ++ "`" := by
  simp [expandEncoderValue, h, extraEncoderArgs]

/-- Witness for C7 at a concrete cataloged preset. -/
theorem expand_encoder_preset_appends_deferred_tokens_witness :
    sampleEncoderCatalog.lookupArgs "Video Toolbox" = some ["-vcodec", "h264_videotoolbox"]
    ∧ expandEncoderValue sampleEncoderCatalog "Video Toolbox" =
      "`" ++ String.intercalate " "
        (["-vcodec", "h264_videotoolbox"]
          ++ (deferredBitrateTokens ++ deferredScaleTokens ++ deferredFramerateTokens))
        ++ "`" :=
  ⟨by decide,
   expand_encoder_preset_appends_deferred_tokens sampleEncoderCatalog "Video Toolbox"
     ["-vcodec", "h264_videotoolbox"] (by decide)⟩

/-- C8: expanding an encoder value whose name is not in the catalog returns
the raw supplied value unchanged, with no deferred-evaluation wrapping. -/
theorem expand_unrecognized_encoder_passes_raw_through
    (encoderArgs : Catalog) (value : String)
    (h : encoderArgs.lookupArgs value = none) :
    expandEncoderValue encoderArgs value = value := by
  simp [expandEncoderValue, h]

/-- Witness for C8: the unrecognized raw value `-vcodec copy` passes through
exactly. -/
theorem expand_unrecognized_encoder_passes_raw_through_witness :
    sampleEncoderCatalog.lookupArgs "-vcodec copy" = none
    ∧ expandEncoderValue sampleEncoderCatalog "-vcodec copy" = "-vcodec copy" :=
  ⟨by decide,
   expand_unrecognized_encoder_passes_raw_through sampleEncoderCatalog "-vcodec copy"
     (by decide)⟩

/-- C9: when the stored `objectDetectionContactSensors` value is absent or
fails to parse as JSON, every descriptor the derivation pass produces for that
key carries the empty sequence as its multi-select value (and the derivation
is a total function, so no error is raised). -/
theorem malformed_object_sensors_derive_empty
    (caps : CapabilitySet) (store : Store) (parse : String → Option (List String))
    (decoderArgs encoderArgs : Catalog)
    (h : ∀ s, store.getItem "objectDetectionContactSensors" = some s → parse s = none) :
    ∀ d ∈ getMixinSettings caps store parse decoderArgs encoderArgs,
      d.key = "objectDetectionContactSensors" → d.value = some (.strList []) := by
  have hval : objectDetectionSensorsValue parse
      (store.getItem "objectDetectionContactSensors") = [] := by
    cases hs : store.getItem "objectDetectionContactSensors" with
    | none => rfl
    | some s => simp [objectDetectionSensorsValue, h s hs]
  intro d hd hkey
  unfold getMixinSettings at hd
  simp only [List.mem_append] at hd
  rcases hd with ((((((((hd | hd) | hd) | hd) | hd) | hd) | hd) | hd) | hd) | hd
  · replace hd := mem_of_mem_ite_nil hd
    simp only [List.mem_cons, List.not_mem_nil, or_false] at hd
    rcases hd with rfl | rfl <;> simp at hkey
  · replace hd := mem_of_mem_ite_nil hd
    simp only [List.mem_cons, List.not_mem_nil, or_false] at hd
    subst hd; simp at hkey
  · simp only [List.mem_cons, List.not_mem_nil, or_false] at hd
    rcases hd with rfl | rfl | rfl <;> simp at hkey
  · replace hd := mem_of_mem_ite_nil hd
    simp only [List.mem_cons, List.not_mem_nil, or_false] at hd
    subst hd; simp at hkey
  · simp only [List.mem_cons, List.not_mem_nil, or_false] at hd
    subst hd; simp at hkey
  · split at hd <;>
      (simp only [List.mem_cons, List.not_mem_nil, or_false] at hd; subst hd; simp at hkey)
  · replace hd := mem_of_mem_ite_nil hd
    simp only [List.mem_cons, List.not_mem_nil, or_false] at hd
    rcases hd with rfl | rfl <;> simp at hkey
  · replace hd := mem_of_mem_ite_nil hd
    simp only [List.mem_cons, List.not_mem_nil, or_false] at hd
    subst hd; simp at hkey
  · replace hd := mem_of_mem_ite_nil hd
    simp only [List.mem_cons, List.not_mem_nil, or_false] at hd
    rcases hd with rfl | rfl
    · simp [hval]
    · simp at hkey
  · replace hd := mem_of_mem_ite_nil hd
    simp only [List.mem_cons, List.not_mem_nil, or_false] at hd
    subst hd; simp at hkey

/-- Witness for C9 at a concrete input: a detector-equipped capability set and
a store whose `objectDetectionContactSensors` entry parses as no JSON array —
the pass produces such a descriptor, and it carries the empty sequence. -/
theorem malformed_object_sensors_derive_empty_witness :
    (∃ d ∈ getMixinSettings capsWithDetector storeWithBadJson (fun _ => none) [] [],
      d.key = "objectDetectionContactSensors")
    ∧ ∀ d ∈ getMixinSettings capsWithDetector storeWithBadJson (fun _ => none) [] [],
        d.key = "objectDetectionContactSensors" → d.value = some (.strList []) :=
  ⟨by decide,
   malformed_object_sensors_derive_empty capsWithDetector storeWithBadJson
     (fun _ => none) [] [] (fun _ _ => rfl)⟩

/-- C5 counterexample: a store can hold a present (but empty) entry under
`hubStreamingMode` while the displayed value is derived from the
`dynamicBitrate` flag instead of equalling the stored entry. -/
theorem stored_empty_hub_mode_not_displayed :
    storeEmptyHubWithDynamic.getItem "hubStreamingMode" = some ""
    ∧ hubStreamingModeValue storeEmptyHubWithDynamic = "Dynamic Bitrate" :=
  ⟨by decide, by decide⟩

/-- C5 (amended): the displayed `hubStreamingMode` value equals the stored
entry when one is present and nonempty; otherwise it is `Dynamic Bitrate` when
the `dynamicBitrate` flag is `"true"` (also when both flags are set),
otherwise `Transcode` when the `transcodeStreamingHub` flag is `"true"`,
otherwise `Disabled` — i.e. the read path refines the spec-side display
rule on every store. -/
theorem hubStreamingModeValue_eq_spec (store : Store) :
    hubStreamingModeValue store = specHubStreamingDisplay store := by
  unfold hubStreamingModeValue specHubStreamingDisplay
  cases h0 : store.getItem "hubStreamingMode" with
  | none =>
    simp [jsTruthy]
    split_ifs <;> simp
  | some s =>
    by_cases hs : s = ""
    · simp [jsTruthy, hs]
      split_ifs <;> simp_all
    · simp [jsTruthy, hs]

/-- C6: for every capability set, store state, JSON parser and catalogs, one
derivation pass produces no two descriptors with the same key. -/
theorem getMixinSettings_keys_nodup (caps : CapabilitySet) (store : Store)
    (parse : String → Option (List String)) (decoderArgs encoderArgs : Catalog) :
    ((getMixinSettings caps store parse decoderArgs encoderArgs).map
      SettingDescriptor.key).Nodup := by
  have hsub : ((getMixinSettings caps store parse decoderArgs encoderArgs).map
      SettingDescriptor.key).Sublist
      (["streamingChannel", "streamingChannelHub"] ++ ["recordingChannel"]
        ++ ["linkedMotionSensor", "transcodingNotices", "needsExtraData"]
        ++ ["transcodeRecording"] ++ ["transcodeStreaming"]
        ++ ["hubStreamingMode", "transcodeStreamingHub"]
        ++ ["videoDecoderArguments", "h264EncoderArguments"] ++ ["detectAudio"]
        ++ ["objectDetectionContactSensors", "objectDetectionContactSensorTimeout"]
        ++ ["statusIndicator"]) := by
    unfold getMixinSettings
    simp only [List.map_append, apply_ite (List.map SettingDescriptor.key),
      List.map_cons, List.map_nil]
    refine List.Sublist.append (List.Sublist.append (List.Sublist.append
      (List.Sublist.append (List.Sublist.append (List.Sublist.append
        (List.Sublist.append (List.Sublist.append
          (List.Sublist.append ?_ ?_) ?_) ?_) ?_) ?_) ?_) ?_) ?_) ?_
    all_goals first
      | (split_ifs <;> decide)
      | decide
  exact List.Nodup.sublist hsub (by decide)

/-- A write to a key other than the four specially handled ones stores the
string value verbatim and leaves every other key unchanged. -/
theorem putMixinSetting_plain (decoderArgs encoderArgs : Catalog)
    (jsonStringify : SettingValue → String) (store : Store) (key v : String)
    (h1 : key ≠ "videoDecoderArguments") (h2 : key ≠ "h264EncoderArguments")
    (h3 : key ≠ "hubStreamingMode") (h4 : key ≠ "objectDetectionContactSensors") :
    ∀ k', (putMixinSetting decoderArgs encoderArgs jsonStringify store key
        (.str v)).getItem k'
      = if k' = key then some v else store.getItem k' := by
  intro k'
  simp [putMixinSetting, Store.getItem, Store.setItem, h1, h2, h3, h4,
    SettingValue.toStorageString]

/-- A write to the encoder-arguments key stores the expanded value and leaves
every other key unchanged. -/
theorem putMixinSetting_encoder (decoderArgs encoderArgs : Catalog)
    (jsonStringify : SettingValue → String) (store : Store) (v : String) :
    ∀ k', (putMixinSetting decoderArgs encoderArgs jsonStringify store
        "h264EncoderArguments" (.str v)).getItem k'
      = if k' = "h264EncoderArguments" then some (expandEncoderValue encoderArgs v)
        else store.getItem k' := by
  intro k'
  simp [putMixinSetting, Store.getItem, Store.setItem, SettingValue.toStorageString]

/-- A `hubStreamingMode` write always ends by persisting the written string
under the key itself. -/
theorem putMixinSetting_hub_self (decoderArgs encoderArgs : Catalog)
    (jsonStringify : SettingValue → String) (store : Store) (v : String) :
    (putMixinSetting decoderArgs encoderArgs jsonStringify store
        "hubStreamingMode" (.str v)).getItem "hubStreamingMode" = some v := by
  simp [putMixinSetting, Store.getItem, Store.setItem, SettingValue.toStorageString]

/-- C4 counterexample: writing the cataloged encoder preset name
`Video Toolbox` to `h264EncoderArguments` and re-deriving the descriptor list
yields the backtick-wrapped expanded argument string, which is not the value
that was written. -/
theorem roundtrip_fails_for_cataloged_encoder_preset :
    ((getMixinSettings capsFull
        (putMixinSetting [] sampleEncoderCatalog (fun _ => "null")
          storeTranscodeStreaming "h264EncoderArguments" (.str "Video Toolbox"))
        (fun _ => none) [] sampleEncoderCatalog).find?
      (fun d => d.key == "h264EncoderArguments")).map SettingDescriptor.value
      = some (some (.str "`-vcodec h264_videotoolbox -b:v $\x7brequest.video.max_bit_rate * 2\x7dk -vf scale=$\x7brequest.video.width\x7d:$\x7brequest.video.height\x7d -r $\x7brequest.video.fps\x7d`"))
    ∧ ("`-vcodec h264_videotoolbox -b:v $\x7brequest.video.max_bit_rate * 2\x7dk -vf scale=$\x7brequest.video.width\x7d:$\x7brequest.video.height\x7d -r $\x7brequest.video.fps\x7d`" : String)
      ≠ "Video Toolbox" :=
  ⟨by decide, by decide⟩

/-- C4 (amended): writing a valid choice and re-deriving the descriptor list
yields that same value back for the verbatim-stored choice keys —
`hubStreamingMode` with any of its three choices, and the channel selectors
`streamingChannel`, `streamingChannelHub` and `recordingChannel` with any
nonempty offered channel name — while for `h264EncoderArguments` a written
value that is a cataloged encoder preset name re-derives as the
backtick-wrapped expanded argument string instead of the written name. -/
theorem roundtrip_after_write (decoderArgs encoderArgs : Catalog)
    (jsonStringify : SettingValue → String) (parse : String → Option (List String))
    (caps : CapabilitySet) (store : Store) (v : String) :
    (caps.supportsVideoCameraConfiguration = true →
      (v = "Disabled" ∨ v = "Transcode" ∨ v = "Dynamic Bitrate") →
      ((getMixinSettings caps
          (putMixinSetting decoderArgs encoderArgs jsonStringify store
            "hubStreamingMode" (.str v)) parse decoderArgs encoderArgs).find?
        (fun d => d.key == "hubStreamingMode")).map SettingDescriptor.value
        = some (some (.str v)))
    ∧ (1 < caps.msos.length → v ∈ caps.msos → v ≠ "" →
      ((getMixinSettings caps
          (putMixinSetting decoderArgs encoderArgs jsonStringify store
            "streamingChannel" (.str v)) parse decoderArgs encoderArgs).find?
        (fun d => d.key == "streamingChannel")).map SettingDescriptor.value
        = some (some (.str v)))
    ∧ (1 < caps.msos.length → v ∈ caps.msos → v ≠ "" →
      ((getMixinSettings caps
          (putMixinSetting decoderArgs encoderArgs jsonStringify store
            "streamingChannelHub" (.str v)) parse decoderArgs encoderArgs).find?
        (fun d => d.key == "streamingChannelHub")).map SettingDescriptor.value
        = some (some (.str v)))
    ∧ (1 < caps.msos.length → v ∈ caps.msos → v ≠ "" →
      hasMotionSensor caps store = true →
      ((getMixinSettings caps
          (putMixinSetting decoderArgs encoderArgs jsonStringify store
            "recordingChannel" (.str v)) parse decoderArgs encoderArgs).find?
        (fun d => d.key == "recordingChannel")).map SettingDescriptor.value
        = some (some (.str v)))
    ∧ (∀ args, encoderArgs.lookupArgs v = some args →
      showTranscodeArgs caps store = true →
      ((getMixinSettings caps
          (putMixinSetting decoderArgs encoderArgs jsonStringify store
            "h264EncoderArguments" (.str v)) parse decoderArgs encoderArgs).find?
        (fun d => d.key == "h264EncoderArguments")).map SettingDescriptor.value
        = some (some (.str ("`" ++ String.intercalate " " (args ++ extraEncoderArgs)
            ++ "`")))) := by
  refine ⟨?_, ?_, ?_, ?_, ?_⟩
  · intro hsup hv
    have hne : v ≠ "" := by rcases hv with rfl | rfl | rfl <;> decide
    have hget := putMixinSetting_hub_self decoderArgs encoderArgs jsonStringify store v
    have hdisp : hubStreamingModeValue (putMixinSetting decoderArgs encoderArgs
        jsonStringify store "hubStreamingMode" (.str v)) = v := by
      simp [hubStreamingModeValue, hget, jsTruthy, hne]
    unfold getMixinSettings
    simp [List.find?_append, List.find?, hsup, hdisp,
      apply_ite (List.find? (fun d : SettingDescriptor => d.key == "hubStreamingMode"))]
  · intro hlen hmem hne
    have hp := putMixinSetting_plain decoderArgs encoderArgs jsonStringify store
      "streamingChannel" v (by decide) (by decide) (by decide) (by decide)
    have hval : storedOr (putMixinSetting decoderArgs encoderArgs jsonStringify store
        "streamingChannel" (.str v)) "streamingChannel" caps.msos.headI = v := by
      simp [storedOr, hp, hne]
    unfold getMixinSettings
    simp [List.find?_append, List.find?, hlen, hval,
      apply_ite (List.find? (fun d : SettingDescriptor => d.key == "streamingChannel"))]
  · intro hlen hmem hne
    have hp := putMixinSetting_plain decoderArgs encoderArgs jsonStringify store
      "streamingChannelHub" v (by decide) (by decide) (by decide) (by decide)
    have hval : storedOr (putMixinSetting decoderArgs encoderArgs jsonStringify store
        "streamingChannelHub" (.str v)) "streamingChannelHub" caps.msos.headI = v := by
      simp [storedOr, hp, hne]
    unfold getMixinSettings
    simp [List.find?_append, List.find?, hlen, hval,
      apply_ite (List.find? (fun d : SettingDescriptor => d.key == "streamingChannelHub"))]
  · intro hlen hmem hne hm
    have hp := putMixinSetting_plain decoderArgs encoderArgs jsonStringify store
      "recordingChannel" v (by decide) (by decide) (by decide) (by decide)
    have hms : hasMotionSensor caps (putMixinSetting decoderArgs encoderArgs
        jsonStringify store "recordingChannel" (.str v)) = true := by
      simpa [hasMotionSensor, hp] using hm
    have hval : storedOr (putMixinSetting decoderArgs encoderArgs jsonStringify store
        "recordingChannel" (.str v)) "recordingChannel" caps.msos.headI = v := by
      simp [storedOr, hp, hne]
    unfold getMixinSettings
    simp [List.find?_append, List.find?, hlen, hms, hval,
      apply_ite (List.find? (fun d : SettingDescriptor => d.key == "recordingChannel"))]
  · intro args hargs hshow
    have hp := putMixinSetting_encoder decoderArgs encoderArgs jsonStringify store v
    have hshow' : showTranscodeArgs caps (putMixinSetting decoderArgs encoderArgs
        jsonStringify store "h264EncoderArguments" (.str v)) = true := by
      simpa [showTranscodeArgs, showTranscodeArgsBase, hasMotionSensor, hp] using hshow
    have hval : (putMixinSetting decoderArgs encoderArgs jsonStringify store
        "h264EncoderArguments" (.str v)).getItem "h264EncoderArguments"
        = some (expandEncoderValue encoderArgs v) := by
      simp [hp]
    unfold getMixinSettings
    simp [List.find?_append, List.find?, hshow', hval, expandEncoderValue, hargs,
      apply_ite (List.find? (fun d : SettingDescriptor => d.key == "h264EncoderArguments"))]

/-- Witness for the amended C4 theorem at concrete inputs: the mode choice
`Transcode` round-trips, the channel choice `sub` round-trips on all three
channel selectors, and the cataloged preset name `Video Toolbox` re-derives as
the expanded argument string. -/
theorem roundtrip_after_write_witness :
    (((getMixinSettings capsFull
        (putMixinSetting [] sampleEncoderCatalog (fun _ => "null")
          storeTranscodeStreaming "hubStreamingMode" (.str "Transcode"))
        (fun _ => none) [] sampleEncoderCatalog).find?
      (fun d => d.key == "hubStreamingMode")).map SettingDescriptor.value
      = some (some (.str "Transcode")))
    ∧ (((getMixinSettings capsFull
        (putMixinSetting [] sampleEncoderCatalog (fun _ => "null")
          storeTranscodeStreaming "streamingChannel" (.str "sub"))
        (fun _ => none) [] sampleEncoderCatalog).find?
      (fun d => d.key == "streamingChannel")).map SettingDescriptor.value
      = some (some (.str "sub")))
    ∧ (((getMixinSettings capsFull
        (putMixinSetting [] sampleEncoderCatalog (fun _ => "null")
          storeTranscodeStreaming "streamingChannelHub" (.str "sub"))
        (fun _ => none) [] sampleEncoderCatalog).find?
      (fun d => d.key == "streamingChannelHub")).map SettingDescriptor.value
      = some (some (.str "sub")))
    ∧ (((getMixinSettings capsFull
        (putMixinSetting [] sampleEncoderCatalog (fun _ => "null")
          storeTranscodeStreaming "recordingChannel" (.str "sub"))
        (fun _ => none) [] sampleEncoderCatalog).find?
      (fun d => d.key == "recordingChannel")).map SettingDescriptor.value
      = some (some (.str "sub")))
    ∧ (((getMixinSettings capsFull
        (putMixinSetting [] sampleEncoderCatalog (fun _ => "null")
          storeTranscodeStreaming "h264EncoderArguments" (.str "Video Toolbox"))
        (fun _ => none) [] sampleEncoderCatalog).find?
      (fun d => d.key == "h264EncoderArguments")).map SettingDescriptor.value
      = some (some (.str ("`" ++ String.intercalate " "
          (["-vcodec", "h264_videotoolbox"] ++ extraEncoderArgs) ++ "`")))) :=
  ⟨(roundtrip_after_write [] sampleEncoderCatalog (fun _ => "null") (fun _ => none)
      capsFull storeTranscodeStreaming "Transcode").1 rfl (Or.inr (Or.inl rfl)),
   (roundtrip_after_write [] sampleEncoderCatalog (fun _ => "null") (fun _ => none)
      capsFull storeTranscodeStreaming "sub").2.1 (by decide) (by decide) (by decide),
   (roundtrip_after_write [] sampleEncoderCatalog (fun _ => "null") (fun _ => none)
      capsFull storeTranscodeStreaming "sub").2.2.1 (by decide) (by decide) (by decide),
   (roundtrip_after_write [] sampleEncoderCatalog (fun _ => "null") (fun _ => none)
      capsFull storeTranscodeStreaming "sub").2.2.2.1 (by decide) (by decide)
      (by decide) (by decide),
   (roundtrip_after_write [] sampleEncoderCatalog (fun _ => "null") (fun _ => none)
      capsFull storeTranscodeStreaming "Video Toolbox").2.2.2.2
      ["-vcodec", "h264_videotoolbox"] (by decide) (by decide)⟩

end CameraMixin
